import Mathlib

/-!
Verification of update_ovh_ddns.py, a dynamic-DNS updater.

The program is embedded shallowly: the filesystem (configuration file,
address-cache file, log file) is explicit state, the two curl subprocess
invocations are environment parameters describing their outcome, and the
run of main is a pure function producing an exit status, console output,
final state and a trace of the externally visible events (lookup request,
update request, cache write, log write).
-/

/-- Characters stripped by Python str.strip (the ASCII whitespace set). -/
def pyWS (c : Char) : Bool :=
  c = ' ' || c = '\t' || c = '\n' || c = '\r' || c = '\x0b' || c = '\x0c'

/-- Python str.strip on the character list: drop whitespace from both ends. -/
def stripList (l : List Char) : List Char :=
  List.rdropWhile pyWS (List.dropWhile pyWS l)

/-- Python s.strip() for a string s. -/
def pyStrip (s : String) : String :=
  ⟨stripList s.data⟩

/-- Python slicing l[-n:]: the last n elements of l. -/
def takeLast (n : Nat) (l : List α) : List α :=
  l.drop (l.length - n)

/-- The constant VERSION = "1.0" of the source. -/
def VERSION : String := "1.0"

/-- A single-quote character, used in log messages of the source. -/
def squote : String :=
  ⟨[Char.ofNat 39]⟩

/-- Outcome of one subprocess.run call on curl with check=True: either the
process ran and exited 0 (with the given standard output), or it exited
non-zero (CalledProcessError carrying message msg), or the invocation itself
failed (e.g. the curl binary is absent), which raises an exception the
source does not catch. -/
inductive CurlRun where
  | ok (stdout : String)
  | procError (msg : String)
  | invokeError
deriving DecidableEq, Repr

/-- The parsed ovh section of the configuration file. The fields urlLookup
and ipv6 are none when the key is absent (configparser falls back). -/
structure ConfigData where
  username : String
  password : String
  hostname : String
  urlLookup : Option String
  ipv6 : Option String
deriving DecidableEq, Repr

/-- The world at the start of a run: configuration file (none = file
missing), address-cache file content (none = file absent), log file lines. -/
structure World where
  config : Option ConfigData
  cache : Option String
  logLines : List String
deriving DecidableEq, Repr

/-- Externally visible events of a run, in order of occurrence. -/
inductive Event where
  | lookupReq
  | updateReq
  | cacheWrite
  | logWrite
deriving DecidableEq, Repr

/-- The view a run has of the process environment: command-line flags, the
wall clock (an opaque timestamp string), and the outcomes of the lookup
and update curl invocations, were they to be performed. -/
structure Env where
  versionFlag : Bool
  verbose : Bool
  now : String
  lookup : CurlRun
  update : CurlRun
deriving DecidableEq, Repr

/-- Mutable state threaded through the run. -/
structure St where
  cache : Option String
  logLines : List String
  stdout : List String
  trace : List Event
deriving DecidableEq, Repr

/-- Result of a completed run. -/
structure RunResult where
  exit : Nat
  final : St
deriving DecidableEq, Repr

/-- One timestamped log line, as the log function formats it. -/
def logEntry (now msg : String) : String :=
  "[" ++ now ++ "] " ++ msg ++ "\n"

/-- The log file rewrite performed by the log function: append the entry,
keep the last 10 lines. -/
def logUpdate (entry : String) (lines : List String) : List String :=
  takeLast 10 (lines ++ [entry])

/-- The function log(message): read the log file, append a timestamped
entry, keep the last 10 entries, rewrite the file; echo to the console when
verbose. -/
def logStep (env : Env) (msg : String) (st : St) : St :=
  let entry := logEntry env.now msg
  { st with
    logLines := logUpdate entry st.logLines
    stdout := if env.verbose then st.stdout ++ [pyStrip entry] else st.stdout
    trace := st.trace ++ [Event.logWrite] }

/-- The tuple read_config returns after applying the fallbacks and
stripping the ipv6 value. -/
structure ConfigVals where
  username : String
  password : String
  hostname : String
  urlLookup : String
  ipv6 : String
deriving DecidableEq, Repr

/-- The function read_config on a present, well-formed configuration file. -/
def readConfigVals (c : ConfigData) : ConfigVals :=
  { username := c.username
    password := c.password
    hostname := c.hostname
    urlLookup := c.urlLookup.getD ("http://ipconfig.io")
    ipv6 := pyStrip (c.ipv6.getD "") }

/-- The function get_ipv6_from_site(url_lookup): run curl -6 -s url; on
exit 0 strip stdout, log and return it; on non-zero exit log the error and
call sys.exit(1); on any other invocation failure the exception is
uncaught, so the process dies with status 1 and no log entry is written. -/
def getIpv6FromSite (env : Env) (url : String) (st : St) :
    Except RunResult (String × St) :=
  let st := { st with trace := st.trace ++ [Event.lookupReq] }
  match env.lookup with
  | CurlRun.ok out =>
      let ip := pyStrip out
      Except.ok (ip, logStep env ("Obtained IPv6 from " ++ url ++ ": " ++ ip) st)
  | CurlRun.procError msg =>
      Except.error { exit := 1
                     final := logStep env ("Error fetching IPv6 address: " ++ msg) st }
  | CurlRun.invokeError =>
      Except.error { exit := 1, final := st }

/-- The function update_ovh_dns(username, password, hostname, ipv6): log
the intent, run curl -u user:pass update_url; on exit 0 log completion; on
non-zero exit log the failure and call sys.exit(1); on any other invocation
failure the exception is uncaught (process status 1, no log entry). -/
def updateOvhDns (env : Env) (hostname ip : String) (st : St) :
    Except RunResult St :=
  let st := logStep env ("Updating OVH DDNS for " ++ hostname ++ " -> " ++ ip) st
  let st := { st with trace := st.trace ++ [Event.updateReq] }
  match env.update with
  | CurlRun.ok _ =>
      Except.ok (logStep env ("OVH DDNS update complete.") st)
  | CurlRun.procError msg =>
      Except.error { exit := 1
                     final := logStep env ("Failed to update OVH DDNS: " ++ msg) st }
  | CurlRun.invokeError =>
      Except.error { exit := 1, final := st }

/-- The function read_last_ipv6(): the stripped cache-file content, or none
if the file does not exist. -/
def readLastIpv6 (cache : Option String) : Option String :=
  cache.map pyStrip

/-- The function write_current_ipv6(ipv6): overwrite the cache file with
the stripped address. -/
def writeCurrentIpv6 (ip : String) (st : St) : St :=
  { st with cache := some (pyStrip ip), trace := st.trace ++ [Event.cacheWrite] }

/-- The test last_ipv6 and ipv6 == last_ipv6 of main: Python truthiness
makes both None and the empty string disable the skip. -/
def skipCond (last : Option String) (ip : String) : Bool :=
  match last with
  | none => false
  | some s => (!(s == "")) && (ip == s)

/-- The tail of main once the current address ip is resolved: compare with
the cached address; either skip, or update then persist. -/
def mainAfterResolve (env : Env) (v : ConfigVals) (ip : String) (st : St) :
    RunResult :=
  let last := readLastIpv6 st.cache
  if skipCond last ip then
    { exit := 0
      final := logStep env ("No IPv6 change detected (" ++ ip ++ "). Skipping update.") st }
  else
    match updateOvhDns env v.hostname ip st with
    | Except.error r => r
    | Except.ok st =>
        let st := writeCurrentIpv6 ip st
        let st := logStep env ("Stored new IPv6 address: " ++ ip) st
        { exit := 0, final := st }

/-- The function main after read_config succeeded with values v. -/
def mainWithConfig (env : Env) (v : ConfigVals) (st : St) : RunResult :=
  let step :=
    if v.ipv6 = "" then getIpv6FromSite env v.urlLookup st
    else Except.ok (v.ipv6, st)
  match step with
  | Except.error r => r
  | Except.ok (ip, st) => mainAfterResolve env v ip st

/-- The function main(): version flag short-circuit, then configuration,
resolution, comparison, update, persist. Falling off the end exits 0. -/
def runMain (env : Env) (w : World) : RunResult :=
  let st : St := { cache := w.cache, logLines := w.logLines, stdout := [], trace := [] }
  if env.versionFlag then
    { exit := 0
      final := { st with stdout := ["update_ovh_ddns version " ++ VERSION] } }
  else
    match w.config with
    | none =>
        { exit := 1
          final := logStep env ("Error: Config file " ++ squote ++ "config.txt" ++ squote ++ " not found.") st }
    | some cfg => mainWithConfig env (readConfigVals cfg) st

/-- The address main resolves (static configured value if non-empty after
stripping, else the stripped lookup output), or none when the run dies
during the lookup. -/
def resolvedOf (env : Env) (cfg : ConfigData) : Option String :=
  let v := readConfigVals cfg
  if v.ipv6 = "" then
    match env.lookup with
    | CurlRun.ok out => some (pyStrip out)
    | _ => none
  else some v.ipv6

/-- Exactly one update request in the trace, and no cache write precedes it. -/
def updateOnceBeforeCacheWrite (tr : List Event) : Prop :=
  ∃ pre post, tr = pre ++ Event.updateReq :: post ∧
    Event.updateReq ∉ pre ∧ Event.updateReq ∉ post ∧ Event.cacheWrite ∉ pre

/-! ## Basic lemmas about takeLast and the log file -/

theorem takeLast_length_le (n : Nat) (l : List α) : (takeLast n l).length ≤ n := by
  simp only [takeLast, List.length_drop]
  omega

theorem takeLast_of_length_le (n : Nat) (l : List α) (h : l.length ≤ n) :
    takeLast n l = l := by
  simp [takeLast, Nat.sub_eq_zero_of_le h]

theorem takeLast_takeLast_append (n : Nat) (l m : List α) :
    takeLast n (takeLast n l ++ m) = takeLast n (l ++ m) := by
  simp only [takeLast, List.length_append, List.length_drop,
    List.drop_append_eq_append_drop, List.drop_drop]
  congr 1
  · congr 1
    omega
  · congr 1
    omega

theorem logUpdate_length_le (e : String) (lines : List String) :
    (logUpdate e lines).length ≤ 10 :=
  takeLast_length_le 10 (lines ++ [e])

theorem self_mem_takeLast_concat (n : Nat) (hn : 1 ≤ n) (e : α) (l : List α) :
    e ∈ takeLast n (l ++ [e]) := by
  unfold takeLast
  rw [List.drop_append_eq_append_drop]
  refine List.mem_append.mpr (Or.inr ?_)
  have h : (l ++ [e]).length - n - l.length = 0 := by
    simp only [List.length_append, List.length_singleton]
    omega
  rw [h]
  simp

theorem self_mem_logUpdate (e : String) (lines : List String) :
    e ∈ logUpdate e lines :=
  self_mem_takeLast_concat 10 (by omega) e lines

theorem foldl_logUpdate_of_length_le (es : List String) (init : List String)
    (h : init.length ≤ 10) :
    es.foldl (fun acc e => logUpdate e acc) init = takeLast 10 (init ++ es) := by
  induction es generalizing init with
  | nil => simp [takeLast_of_length_le 10 init h]
  | cons e es ih =>
      rw [List.foldl_cons, ih (logUpdate e init) (logUpdate_length_le e init)]
      show takeLast 10 (takeLast 10 (init ++ [e]) ++ es) = _
      rw [takeLast_takeLast_append]
      simp

theorem foldl_logUpdate_ne_nil (es : List String) (init : List String) (h : es ≠ []) :
    es.foldl (fun acc e => logUpdate e acc) init = takeLast 10 (init ++ es) := by
  cases es with
  | nil => exact absurd rfl h
  | cons e es =>
      rw [List.foldl_cons,
        foldl_logUpdate_of_length_le es (logUpdate e init) (logUpdate_length_le e init)]
      show takeLast 10 (takeLast 10 (init ++ [e]) ++ es) = _
      rw [takeLast_takeLast_append]
      simp

theorem foldl_logStep_logLines (env : Env) (msgs : List String) (st : St) :
    (msgs.foldl (fun s m => logStep env m s) st).logLines =
      (msgs.map (logEntry env.now)).foldl (fun acc e => logUpdate e acc) st.logLines := by
  induction msgs generalizing st with
  | nil => rfl
  | cons m ms ih =>
      rw [List.foldl_cons, List.map_cons, List.foldl_cons, ih (logStep env m st)]
      rfl

/-! ## Lemmas about Python strip -/

theorem dropWhile_of_front {p : α → Bool} {k m : List α}
    (hk : k <+: m) (hm : List.dropWhile p m = m) : List.dropWhile p k = k := by
  obtain ⟨t, rfl⟩ := hk
  cases k with
  | nil => rfl
  | cons a k2 =>
      rw [List.cons_append, List.dropWhile_cons] at hm
      rw [List.dropWhile_cons]
      by_cases h : p a = true
      · rw [if_pos h] at hm
        have hle : (List.dropWhile p (k2 ++ t)).length ≤ (k2 ++ t).length :=
          (List.dropWhile_suffix p).length_le
        rw [hm] at hle
        simp at hle
      · rw [if_neg h]

theorem stripList_idem (l : List Char) :
    stripList (stripList l) = stripList l := by
  unfold stripList
  have h2 : List.dropWhile pyWS (List.rdropWhile pyWS (List.dropWhile pyWS l))
      = List.rdropWhile pyWS (List.dropWhile pyWS l) :=
    dropWhile_of_front ( List.rdropWhile_prefix pyWS (List.dropWhile pyWS l))
      (List.dropWhile_idempotent pyWS l)
  rw [h2, List.rdropWhile_idempotent]

theorem pyStrip_idem (s : String) : pyStrip (pyStrip s) = pyStrip s := by
  show (⟨stripList (stripList s.data)⟩ : String) = ⟨stripList s.data⟩
  rw [stripList_idem]

theorem pyStrip_eq_empty_of_all_ws (s : String) (h : s.data.all pyWS = true) :
    pyStrip s = "" := by
  have h1 : List.dropWhile pyWS s.data = [] :=
    List.dropWhile_eq_nil_iff.mpr (by simpa [List.all_eq_true] using h)
  show (⟨stripList s.data⟩ : String) = ""
  unfold stripList
  rw [h1, List.rdropWhile_nil]

/-! ## Reduction lemmas for runMain -/

theorem runMain_static (env : Env) (w : World) (cfg : ConfigData)
    (hv : env.versionFlag = false) (hc : w.config = some cfg)
    (hz : (readConfigVals cfg).ipv6 ≠ "") :
    runMain env w = mainAfterResolve env (readConfigVals cfg) (readConfigVals cfg).ipv6
      { cache := w.cache, logLines := w.logLines, stdout := [], trace := [] } := by
  simp [runMain, mainWithConfig, hv, hc, hz]

theorem runMain_lookup_ok (env : Env) (w : World) (cfg : ConfigData) (out : String)
    (hv : env.versionFlag = false) (hc : w.config = some cfg)
    (hz : (readConfigVals cfg).ipv6 = "") (hl : env.lookup = CurlRun.ok out) :
    runMain env w = mainAfterResolve env (readConfigVals cfg) (pyStrip out)
      (logStep env ("Obtained IPv6 from " ++ (readConfigVals cfg).urlLookup ++ ": " ++ pyStrip out)
        { cache := w.cache, logLines := w.logLines, stdout := [], trace := [Event.lookupReq] }) := by
  simp [runMain, mainWithConfig, getIpv6FromSite, hv, hc, hz, hl]

theorem runMain_resolved (env : Env) (w : World) (cfg : ConfigData) (ip : String)
    (hv : env.versionFlag = false) (hc : w.config = some cfg)
    (hres : resolvedOf env cfg = some ip) :
    ∃ st1 : St,
      runMain env w = mainAfterResolve env (readConfigVals cfg) ip st1 ∧
      st1.cache = w.cache ∧
      (st1.trace = [] ∨ st1.trace = [Event.lookupReq, Event.logWrite]) := by
  by_cases hz : (readConfigVals cfg).ipv6 = ""
  · cases hl : env.lookup with
    | ok out =>
        have hip : ip = pyStrip out := by
          simp [resolvedOf, hz, hl] at hres
          exact hres.symm
        subst hip
        refine ⟨_, runMain_lookup_ok env w cfg out hv hc hz hl, ?_, ?_⟩
        · rfl
        · right
          simp [logStep]
    | procError m => simp [resolvedOf, hz, hl] at hres
    | invokeError => simp [resolvedOf, hz, hl] at hres
  · have hip : ip = (readConfigVals cfg).ipv6 := by
      simp [resolvedOf, hz] at hres
      exact hres.symm
    subst hip
    exact ⟨_, runMain_static env w cfg hv hc hz, rfl, Or.inl rfl⟩

theorem mainAfterResolve_trace (env : Env) (v : ConfigVals) (ip : String) (st : St) :
    ∃ L : List Event, (mainAfterResolve env v ip st).final.trace = st.trace ++ L ∧
      Event.lookupReq ∉ L := by
  unfold mainAfterResolve
  by_cases hs : skipCond (readLastIpv6 st.cache) ip
  · rw [if_pos hs]
    exact ⟨[Event.logWrite], by simp [logStep], by decide⟩
  · rw [if_neg hs]
    unfold updateOvhDns
    cases env.update with
    | ok out =>
        refine ⟨[Event.logWrite, Event.updateReq, Event.logWrite, Event.cacheWrite,
          Event.logWrite], ?_, by decide⟩
        simp [logStep, writeCurrentIpv6]
    | procError m =>
        refine ⟨[Event.logWrite, Event.updateReq, Event.logWrite], ?_, by decide⟩
        simp [logStep]
    | invokeError =>
        refine ⟨[Event.logWrite, Event.updateReq], ?_, by decide⟩
        simp [logStep]

theorem mainAfterResolve_noskip_spec (env : Env) (v : ConfigVals) (ip : String) (st : St)
    (hs : skipCond (readLastIpv6 st.cache) ip = false)
    (h1 : Event.updateReq ∉ st.trace) (h2 : Event.cacheWrite ∉ st.trace) :
    updateOnceBeforeCacheWrite (mainAfterResolve env v ip st).final.trace ∧
    (∀ msg, env.update = CurlRun.procError msg →
      (mainAfterResolve env v ip st).exit = 1 ∧
      (mainAfterResolve env v ip st).final.cache = st.cache) := by
  simp only [mainAfterResolve, hs, Bool.false_eq_true, if_false]
  unfold updateOvhDns
  cases env.update with
  | ok out =>
      constructor
      · refine ⟨st.trace ++ [Event.logWrite],
          [Event.logWrite, Event.cacheWrite, Event.logWrite], ?_, ?_, by decide, ?_⟩
        · simp [logStep, writeCurrentIpv6]
        · simp [h1]
        · simp [h2]
      · intro msg hmsg
        simp at hmsg
  | procError m =>
      constructor
      · refine ⟨st.trace ++ [Event.logWrite], [Event.logWrite], ?_, ?_, by decide, ?_⟩
        · simp [logStep]
        · simp [h1]
        · simp [h2]
      · intro msg hmsg
        refine ⟨rfl, ?_⟩
        simp [logStep]
  | invokeError =>
      constructor
      · refine ⟨st.trace ++ [Event.logWrite], [], ?_, ?_, by decide, ?_⟩
        · simp [logStep]
        · simp [h1]
        · simp [h2]
      · intro msg hmsg
        simp at hmsg

/-! ## Claim theorems -/

/-- C2: after any log call the log file holds at most 10 entries, and
writing 15 sequential entries from any initial log-file state leaves
exactly the last 10 timestamped entries, oldest first (each call re-reads
the file, appends one entry, truncates to the last 10 and rewrites it). -/
theorem claim_log_capacity (env : Env) (st : St) (msgs : List String)
    (h : msgs ≠ []) :
    (msgs.foldl (fun s m => logStep env m s) st).logLines.length ≤ 10 ∧
    (msgs.length = 15 →
      (msgs.foldl (fun s m => logStep env m s) st).logLines =
        (msgs.map (logEntry env.now)).drop 5) := by
  have hmap : msgs.map (logEntry env.now) ≠ [] := by
    simpa using h
  rw [foldl_logStep_logLines, foldl_logUpdate_ne_nil _ _ hmap]
  refine ⟨takeLast_length_le _ _, fun h15 => ?_⟩
  have hM : (msgs.map (logEntry env.now)).length = 15 := by simp [h15]
  unfold takeLast
  rw [List.drop_append_eq_append_drop]
  have h1 : st.logLines.drop
      ((st.logLines ++ msgs.map (logEntry env.now)).length - 10) = [] := by
    apply List.drop_eq_nil_of_le
    simp only [List.length_append, hM]
    omega
  rw [h1, List.nil_append]
  congr 1
  simp only [List.length_append, hM]
  omega

/-- A concrete environment for exercising the log function. -/
def envLog : Env :=
  { versionFlag := false
    verbose := false
    now := "t"
    lookup := CurlRun.invokeError
    update := CurlRun.invokeError }

/-- A concrete initial run state with empty files. -/
def stEmpty : St :=
  { cache := none, logLines := [], stdout := [], trace := [] }

/-- Witness for C2 at a concrete environment and 15 concrete messages. -/
theorem claim_log_capacity_witness :
    ((List.replicate 15 "m").foldl (fun s m => logStep envLog m s) stEmpty).logLines.length
        ≤ 10 ∧
    ((List.replicate 15 "m").length = 15 →
      ((List.replicate 15 "m").foldl (fun s m => logStep envLog m s) stEmpty).logLines =
        ((List.replicate 15 "m").map (logEntry envLog.now)).drop 5) :=
  claim_log_capacity envLog stEmpty (List.replicate 15 "m") (by decide)

/-- C8: writing the cache file and then reading it back returns the trimmed
form of the written string, so surrounding whitespace never survives a
round trip. -/
theorem claim_cache_roundtrip (s : String) (st : St) :
    readLastIpv6 ((writeCurrentIpv6 s st).cache) = some (pyStrip s) := by
  simp [readLastIpv6, writeCurrentIpv6, pyStrip_idem]

/-- C1: whenever the resolved current address differs from the cached one,
exactly one update request is issued and it precedes any cache write; if
the update client exits non-zero, the run exits 1 and the cache file keeps
its prior value (or stays absent). -/
theorem claim_update_before_persist (env : Env) (w : World) (cfg : ConfigData)
    (ip : String)
    (hv : env.versionFlag = false) (hc : w.config = some cfg)
    (hres : resolvedOf env cfg = some ip)
    (hdiff : Option.map pyStrip w.cache ≠ some ip) :
    updateOnceBeforeCacheWrite (runMain env w).final.trace ∧
    (∀ msg, env.update = CurlRun.procError msg →
      (runMain env w).exit = 1 ∧ (runMain env w).final.cache = w.cache) := by
  obtain ⟨st1, heq, hcache, htr⟩ := runMain_resolved env w cfg ip hv hc hres
  rw [heq]
  have hs : skipCond (readLastIpv6 st1.cache) ip = false := by
    rw [hcache]
    cases hc2 : w.cache with
    | none => rfl
    | some c =>
        have hne : pyStrip c ≠ ip := fun h => hdiff (by rw [hc2]; simp [h])
        have h3 : (ip == pyStrip c) = false := by
          simp only [beq_eq_false_iff_ne, ne_eq]
          intro h
          exact hne h.symm
        simp [skipCond, readLastIpv6, h3]
  have h1 : Event.updateReq ∉ st1.trace := by
    rcases htr with h | h <;> simp [h]
  have h2 : Event.cacheWrite ∉ st1.trace := by
    rcases htr with h | h <;> simp [h]
  obtain ⟨ha, hb⟩ := mainAfterResolve_noskip_spec env (readConfigVals cfg) ip st1 hs h1 h2
  refine ⟨ha, fun msg hm => ?_⟩
  obtain ⟨he, hcc⟩ := hb msg hm
  exact ⟨he, by rw [hcc, hcache]⟩

/-- A configuration with the required keys only: the address is resolved
dynamically. -/
def cfgDyn : ConfigData :=
  { username := "u"
    password := "p"
    hostname := "h"
    urlLookup := none
    ipv6 := none }

/-- A concrete environment whose lookup succeeds with a padded address and
whose update client exits non-zero. -/
def envC1 : Env :=
  { versionFlag := false
    verbose := false
    now := "T"
    lookup := CurlRun.ok (" 2001:db8::1 ")
    update := CurlRun.procError ("exit 6") }

/-- A concrete world whose cache holds a different address. -/
def wC1 : World :=
  { config := some cfgDyn
    cache := some "2001:db8::2"
    logLines := [] }

/-- Witness for C1: differing addresses with a failing update client. -/
theorem claim_update_before_persist_witness :
    updateOnceBeforeCacheWrite (runMain envC1 wC1).final.trace ∧
    (∀ msg, envC1.update = CurlRun.procError msg →
      (runMain envC1 wC1).exit = 1 ∧ (runMain envC1 wC1).final.cache = wC1.cache) :=
  claim_update_before_persist envC1 wC1 cfgDyn ("2001:db8::1")
    rfl rfl (by decide) (by decide)

/-- A concrete environment whose lookup and update both succeed with empty
output, so the resolved address is the empty string. -/
def envC3 : Env :=
  { versionFlag := false
    verbose := false
    now := "T"
    lookup := CurlRun.ok ""
    update := CurlRun.ok "" }

/-- A concrete world whose cache file exists but is blank. -/
def wC3 : World :=
  { config := some cfgDyn
    cache := some ""
    logLines := [] }

/-- C3 counterexample: with the cache file present but blank and the
resolved current address also empty, the last-known address read from the
cache equals the resolved address, yet an update request is issued. -/
theorem claim_skip_on_equal_counterexample :
    readLastIpv6 wC3.cache = some "" ∧ resolvedOf envC3 cfgDyn = some "" ∧
    Event.updateReq ∈ (runMain envC3 wC3).final.trace := by
  decide

/-- C3 (amended): for every run where the last-known address read from the
cache is non-empty and equals the resolved current address, no update
request is issued, the cache file is left unmodified, a skip message is
logged and the process exits with status 0. -/
theorem claim_skip_on_equal (env : Env) (w : World) (cfg : ConfigData) (ip s : String)
    (hv : env.versionFlag = false) (hc : w.config = some cfg)
    (hres : resolvedOf env cfg = some ip)
    (hlast : readLastIpv6 w.cache = some s) (hne : s ≠ "") (heq : ip = s) :
    Event.updateReq ∉ (runMain env w).final.trace ∧
    (runMain env w).final.cache = w.cache ∧
    logEntry env.now ("No IPv6 change detected (" ++ ip ++ "). Skipping update.")
      ∈ (runMain env w).final.logLines ∧
    (runMain env w).exit = 0 := by
  obtain ⟨st1, heqr, hcache, htr⟩ := runMain_resolved env w cfg ip hv hc hres
  rw [heqr]
  have hs : skipCond (readLastIpv6 st1.cache) ip = true := by
    rw [hcache, hlast]
    simp [skipCond, heq, hne]
  simp only [mainAfterResolve, hs, if_true]
  refine ⟨?_, ?_, ?_, ?_⟩
  · rcases htr with h | h <;> simp [logStep, h]
  · simp [logStep, hcache]
  · simp only [logStep]
    exact self_mem_logUpdate _ _
  · trivial

/-- A concrete environment resolving the address 2001:db8::9. -/
def envC3w : Env :=
  { versionFlag := false
    verbose := false
    now := "T"
    lookup := CurlRun.ok ("2001:db8::9")
    update := CurlRun.ok "" }

/-- A concrete world caching the address 2001:db8::9. -/
def wC3w : World :=
  { config := some cfgDyn
    cache := some "2001:db8::9"
    logLines := [] }

/-- Witness for the amended C3: cache and resolved address both equal. -/
theorem claim_skip_on_equal_witness :
    Event.updateReq ∉ (runMain envC3w wC3w).final.trace ∧
    (runMain envC3w wC3w).final.cache = wC3w.cache ∧
    logEntry envC3w.now ("No IPv6 change detected (" ++ "2001:db8::9" ++ "). Skipping update.")
      ∈ (runMain envC3w wC3w).final.logLines ∧
    (runMain envC3w wC3w).exit = 0 :=
  claim_skip_on_equal envC3w wC3w cfgDyn ("2001:db8::9") ("2001:db8::9")
    rfl rfl (by decide) (by decide) (by decide) rfl

/-- C9: when the cache file exists but its trimmed content is empty, the
last-known address is treated as absent: even if the resolved current
address is also the empty string the skip branch is not taken and an update
request is issued. -/
theorem claim_blank_cache_updates (env : Env) (w : World) (cfg : ConfigData)
    (ip c : String)
    (hv : env.versionFlag = false) (hc : w.config = some cfg)
    (hres : resolvedOf env cfg = some ip)
    (hcc : w.cache = some c) (hblank : pyStrip c = "") :
    Event.updateReq ∈ (runMain env w).final.trace := by
  obtain ⟨st1, heqr, hcache, htr⟩ := runMain_resolved env w cfg ip hv hc hres
  rw [heqr]
  have hs : skipCond (readLastIpv6 st1.cache) ip = false := by
    rw [hcache, hcc]
    simp [readLastIpv6, skipCond, hblank]
  have h1 : Event.updateReq ∉ st1.trace := by
    rcases htr with h | h <;> simp [h]
  have h2 : Event.cacheWrite ∉ st1.trace := by
    rcases htr with h | h <;> simp [h]
  obtain ⟨pre, post, htr2, _, _, _⟩ :=
    (mainAfterResolve_noskip_spec env (readConfigVals cfg) ip st1 hs h1 h2).1
  rw [htr2]
  simp

/-- A concrete world whose cache file holds only whitespace. -/
def wC9 : World :=
  { config := some cfgDyn
    cache := some " "
    logLines := [] }

/-- Witness for C9: blank cache, empty resolved address, update issued. -/
theorem claim_blank_cache_updates_witness :
    Event.updateReq ∈ (runMain envC3 wC9).final.trace :=
  claim_blank_cache_updates envC3 wC9 cfgDyn "" (" ")
    rfl rfl (by decide) rfl (by decide)

/-- C4: with a configured static address that is non-empty after trimming,
the resolver yields exactly that trimmed address and the run performs no
network lookup (the external client is never invoked for resolution). -/
theorem claim_static_address (env : Env) (w : World) (cfg : ConfigData)
    (hv : env.versionFlag = false) (hc : w.config = some cfg)
    (hip : pyStrip (cfg.ipv6.getD "") ≠ "") :
    resolvedOf env cfg = some (pyStrip (cfg.ipv6.getD "")) ∧
    Event.lookupReq ∉ (runMain env w).final.trace := by
  have hz : (readConfigVals cfg).ipv6 ≠ "" := by
    simpa [readConfigVals] using hip
  constructor
  · simp [resolvedOf, readConfigVals, hz, hip]
  · rw [runMain_static env w cfg hv hc hz]
    obtain ⟨L, hL, hnot⟩ := mainAfterResolve_trace env (readConfigVals cfg)
      (readConfigVals cfg).ipv6
      { cache := w.cache, logLines := w.logLines, stdout := [], trace := [] }
    rw [hL]
    simpa using hnot

/-- A configuration whose static address is set (padded with whitespace). -/
def cfgStatic : ConfigData :=
  { username := "u"
    password := "p"
    hostname := "h"
    urlLookup := none
    ipv6 := some (" 2001:db8::5 ") }

/-- A concrete environment whose lookup invocation would fail, showing the
lookup is never attempted when a static address is configured. -/
def envC4 : Env :=
  { versionFlag := false
    verbose := false
    now := "T"
    lookup := CurlRun.invokeError
    update := CurlRun.ok "" }

/-- A concrete world with the static-address configuration. -/
def wC4 : World :=
  { config := some cfgStatic
    cache := none
    logLines := [] }

/-- Witness for C4 at a concrete static configuration. -/
theorem claim_static_address_witness :
    resolvedOf envC4 cfgStatic = some (pyStrip (cfgStatic.ipv6.getD "")) ∧
    Event.lookupReq ∉ (runMain envC4 wC4).final.trace :=
  claim_static_address envC4 wC4 cfgStatic rfl rfl (by decide)

/-- A concrete environment whose lookup invocation fails outright. -/
def envC5x : Env :=
  { versionFlag := false
    verbose := false
    now := "T"
    lookup := CurlRun.invokeError
    update := CurlRun.ok "" }

/-- A concrete world requiring a dynamic lookup, with an empty log file. -/
def wC5x : World :=
  { config := some cfgDyn
    cache := none
    logLines := [] }

/-- C5 counterexample: when the lookup invocation itself fails (for example
the client binary is absent), the process dies with status 1 but no fatal
error entry is logged: the log file is left empty. -/
theorem claim_lookup_failure_counterexample :
    (runMain envC5x wC5x).exit = 1 ∧ (runMain envC5x wC5x).final.logLines = [] := by
  decide

/-- C5 (amended): a non-zero exit status from the lookup client is logged
as a fatal error and the process exits with status 1; any other invocation
failure (such as the client binary being absent) also terminates the
process with status 1, but via an uncaught exception, without writing any
log entry. -/
theorem claim_lookup_failure (env : Env) (w : World) (cfg : ConfigData)
    (hv : env.versionFlag = false) (hc : w.config = some cfg)
    (hz : (readConfigVals cfg).ipv6 = "") :
    (∀ msg, env.lookup = CurlRun.procError msg →
      (runMain env w).exit = 1 ∧
      logEntry env.now ("Error fetching IPv6 address: " ++ msg)
        ∈ (runMain env w).final.logLines) ∧
    (env.lookup = CurlRun.invokeError →
      (runMain env w).exit = 1 ∧ (runMain env w).final.logLines = w.logLines) := by
  constructor
  · intro msg hl
    simp only [runMain, mainWithConfig, getIpv6FromSite, hv, Bool.false_eq_true,
      if_false, hc, hz, if_pos, hl]
    refine ⟨by trivial, ?_⟩
    simp only [logStep]
    exact self_mem_logUpdate _ _
  · intro hl
    simp [runMain, mainWithConfig, getIpv6FromSite, hv, hc, hz, hl]

/-- Witness for the amended C5: a lookup exiting non-zero is logged, an
invocation failure is not. -/
theorem claim_lookup_failure_witness :
    ((∀ msg, envC5x.lookup = CurlRun.procError msg →
      (runMain envC5x wC5x).exit = 1 ∧
      logEntry envC5x.now ("Error fetching IPv6 address: " ++ msg)
        ∈ (runMain envC5x wC5x).final.logLines) ∧
    (envC5x.lookup = CurlRun.invokeError →
      (runMain envC5x wC5x).exit = 1 ∧
      (runMain envC5x wC5x).final.logLines = wC5x.logLines)) :=
  claim_lookup_failure envC5x wC5x cfgDyn rfl rfl (by decide)

/-- C6: with the version flag present the run prints the fixed version
string to standard output and exits 0, and neither the configuration nor
the log file nor the address-cache file influences or is touched by the
run: the final state keeps the initial cache and log contents, the trace is
empty, and the result does not depend on the configuration at all. -/
theorem claim_version_flag (env : Env) (w : World) (h : env.versionFlag = true) :
    runMain env w =
      { exit := 0
        final := { cache := w.cache
                   logLines := w.logLines
                   stdout := ["update_ovh_ddns version 1.0"]
                   trace := [] } } := by
  simp only [runMain, h, if_true]
  rfl

/-- A concrete environment with the version flag set. -/
def envC6 : Env :=
  { versionFlag := true
    verbose := false
    now := "T"
    lookup := CurlRun.invokeError
    update := CurlRun.invokeError }

/-- A concrete world with non-trivial file contents. -/
def wC6 : World :=
  { config := some cfgDyn
    cache := some "x"
    logLines := ["old"] }

/-- Witness for C6 at a concrete environment. -/
theorem claim_version_flag_witness :
    runMain envC6 wC6 =
      { exit := 0
        final := { cache := wC6.cache
                   logLines := wC6.logLines
                   stdout := ["update_ovh_ddns version 1.0"]
                   trace := [] } } :=
  claim_version_flag envC6 wC6 rfl

/-- C7: when the configuration file is missing the run exits 1 after one
log entry naming the missing file; the cache is untouched and the trace
holds a single log write, so no lookup, update request or cache access
occurs. -/
theorem claim_missing_config (env : Env) (w : World)
    (hv : env.versionFlag = false) (hc : w.config = none) :
    (runMain env w).exit = 1 ∧
    (runMain env w).final.cache = w.cache ∧
    (runMain env w).final.trace = [Event.logWrite] ∧
    logEntry env.now ("Error: Config file " ++ squote ++ "config.txt" ++ squote ++ " not found.")
      ∈ (runMain env w).final.logLines := by
  simp only [runMain, hv, Bool.false_eq_true, if_false, hc]
  refine ⟨by trivial, by trivial, ?_, ?_⟩
  · simp [logStep]
  · simp only [logStep]
    exact self_mem_logUpdate _ _

/-- A concrete world with no configuration file. -/
def wC7 : World :=
  { config := none
    cache := some "keep"
    logLines := [] }

/-- Witness for C7 at a concrete world lacking a configuration file. -/
theorem claim_missing_config_witness :
    (runMain envLog wC7).exit = 1 ∧
    (runMain envLog wC7).final.cache = wC7.cache ∧
    (runMain envLog wC7).final.trace = [Event.logWrite] ∧
    logEntry envLog.now ("Error: Config file " ++ squote ++ "config.txt" ++ squote ++ " not found.")
      ∈ (runMain envLog wC7).final.logLines :=
  claim_missing_config envLog wC7 rfl rfl

/-- C10: a configured static address consisting only of whitespace is
stripped to the empty string at configuration-load time and treated as no
static address: the parsed configuration and the whole run coincide with
those for the configuration with the key omitted, and the dynamic lookup is
performed. -/
theorem claim_whitespace_static (env : Env) (w : World) (cfg : ConfigData) (ws : String)
    (hv : env.versionFlag = false) (hc : w.config = some cfg)
    (hcfg : cfg.ipv6 = some ws) (hws : ws.data.all pyWS = true) :
    readConfigVals cfg = readConfigVals { cfg with ipv6 := none } ∧
    runMain env w = runMain env { w with config := some { cfg with ipv6 := none } } ∧
    Event.lookupReq ∈ (runMain env w).final.trace := by
  have hstrip : pyStrip ws = "" := pyStrip_eq_empty_of_all_ws ws hws
  have hv1 : readConfigVals cfg = readConfigVals { cfg with ipv6 := none } := by
    simp [readConfigVals, hcfg, hstrip]
    rfl
  refine ⟨hv1, ?_, ?_⟩
  · simp only [runMain, hv, Bool.false_eq_true, if_false, hc]
    rw [hv1]
  · have hz : (readConfigVals cfg).ipv6 = "" := by
      simp [readConfigVals, hcfg, hstrip]
    cases hl : env.lookup with
    | ok out =>
        rw [runMain_lookup_ok env w cfg out hv hc hz hl]
        obtain ⟨L, hL, _⟩ := mainAfterResolve_trace env (readConfigVals cfg) (pyStrip out)
          (logStep env
            ("Obtained IPv6 from " ++ (readConfigVals cfg).urlLookup ++ ": " ++ pyStrip out)
            { cache := w.cache, logLines := w.logLines, stdout := []
              trace := [Event.lookupReq] })
        rw [hL]
        simp [logStep]
    | procError m =>
        simp [runMain, mainWithConfig, getIpv6FromSite, hv, hc, hz, hl, logStep]
    | invokeError =>
        simp [runMain, mainWithConfig, getIpv6FromSite, hv, hc, hz, hl]

/-- A configuration whose static address is whitespace only. -/
def cfgWs : ConfigData :=
  { username := "u"
    password := "p"
    hostname := "h"
    urlLookup := none
    ipv6 := some " " }

/-- A concrete environment whose lookup returns 2001:db8::7. -/
def envC10 : Env :=
  { versionFlag := false
    verbose := false
    now := "T"
    lookup := CurlRun.ok ("2001:db8::7")
    update := CurlRun.ok "" }

/-- A concrete world with the whitespace-only static configuration. -/
def wC10 : World :=
  { config := some cfgWs
    cache := none
    logLines := [] }

/-- Witness for C10 at a concrete whitespace-only configuration. -/
theorem claim_whitespace_static_witness :
    readConfigVals cfgWs = readConfigVals { cfgWs with ipv6 := none } ∧
    runMain envC10 wC10 =
      runMain envC10 { wC10 with config := some { cfgWs with ipv6 := none } } ∧
    Event.lookupReq ∈ (runMain envC10 wC10).final.trace :=
  claim_whitespace_static envC10 wC10 cfgWs (" ") rfl rfl rfl (by decide)
